import Mathlib

/-!
Verification of the PostgreSQL upgrade orchestrator
(`apps/postgresql-upgrade/bin/postgresql_upgrade.py`).

The script is shallowly embedded: the filesystem and other ambient OS
state are modelled by a record of query functions (`FS`, `Env`), and the
stateful operations of the script (directory creation, recursive
deletion, config copying, file unlinking) are modelled as explicit
state-passing functions.  Exceptions are modelled with `Except String`;
since a Python exception leaves the filesystem in whatever state it had
at the raise site, every stateful operation returns the filesystem state
together with the outcome, also on the error path.

External subprocesses (initdb, pg_upgrade, vacuumdb) are opaque tools
whose exit codes are supplied by an oracle; the hop-execution loop is
modelled as a trace of events so that ordering properties (purge after
successful upgrade) can be stated.  The TCP readiness poll is modelled
with a probe oracle indexed by attempt number and an explicit fuel bound
standing in for a test-injected bound on the otherwise unbounded loop.
-/

/-- Byte-faithful prefix test on strings, via their character lists. -/
def strIsPrefixOf (p s : String) : Bool := p.data.isPrefixOf s.data

/-- Membership of a path in the subtree rooted at `root`
(the set of paths removed by `shutil.rmtree(root)`). -/
def pathIsUnder (p root : String) : Bool := p == root || strIsPrefixOf (root ++ "/") p

/-- Byte-faithful suffix test on strings, via their character lists. -/
def strEndsWith (s t : String) : Bool := t.data.isSuffixOf s.data

/-- `os.path.join` for the joins the script performs: the left operand is an
absolute directory that may or may not carry a trailing slash. -/
def pathJoin (dir name : String) : String :=
  if strEndsWith dir "/" then dir ++ name else dir ++ "/" ++ name

/-- Model of the filesystem state as seen through the queries the script
makes: `os.path.exists`, `os.path.isdir`, `os.path.isfile`,
`os.access(_, X_OK)`, and `os.listdir` of the configuration root
`/etc/postgresql/`. -/
structure FS where
  ex : String → Bool
  isDir : String → Bool
  isFile : String → Bool
  accX : String → Bool
  etcList : List String

/-- `shutil.rmtree`: every path in the subtree disappears. -/
def FS.rmtree (fs : FS) (root : String) : FS :=
  { fs with
    ex := fun p => if pathIsUnder p root then false else fs.ex p
    isDir := fun p => if pathIsUnder p root then false else fs.isDir p
    isFile := fun p => if pathIsUnder p root then false else fs.isFile p
    accX := fun p => if pathIsUnder p root then false else fs.accX p }

/-- `pathlib.Path(d).mkdir(parents=True, exist_ok=True)`: the directory
itself becomes an existing, accessible directory.  (Intermediate parents
are not tracked; no check of the script reads them.) -/
def FS.mkdirp (fs : FS) (d : String) : FS :=
  { fs with
    ex := fun p => if p == d then true else fs.ex p
    isDir := fun p => if p == d then true else fs.isDir p
    accX := fun p => if p == d then true else fs.accX p }

/-- `shutil.copytree(src, dst)`: `dst` becomes an existing directory.  Of the
copied tree only `postgresql.conf` is tracked, the one copied file the
script later reads or appends to; `src` is known to contain it because
`current_postgresql_config_path` checked so. -/
def FS.copytree (fs : FS) (_src dst : String) : FS :=
  { fs with
    ex := fun p => if p == dst || p == dst ++ "/postgresql.conf" then true else fs.ex p
    isDir := fun p => if p == dst then true else fs.isDir p
    accX := fun p => if p == dst then true else fs.accX p
    isFile := fun p => if p == dst ++ "/postgresql.conf" then true else fs.isFile p }

/-- `os.unlink(path)`: removes the file, or fails with `FileNotFoundError`
when the path does not exist. -/
def FS.unlink (fs : FS) (path : String) : FS × Except String Unit :=
  if fs.ex path then
    ({ fs with
        ex := fun p => if p == path then false else fs.ex p
        isFile := fun p => if p == path then false else fs.isFile p },
     Except.ok ())
  else
    (fs, Except.error ("FileNotFoundError: " ++ path))

/-- Relative paths handed to `os.unlink` resolve against the current working
directory of the process. -/
def resolvePath (cwd path : String) : String :=
  if strIsPrefixOf "/" path then path else cwd ++ "/" ++ path

/-- Source line 35. -/
def POSTGRES_DATA_DIR : String := "/var/lib/postgresql"

/-- Source line 36. -/
def POSTGRES_USER : String := "postgres"

/-- `_dir_exists_and_accessible` (source lines 59-60). -/
def dir_exists_and_accessible (fs : FS) (directory : String) : Bool :=
  fs.isDir directory && fs.accX directory

/-- Outcome of one `sock.connect_ex` attempt in `_tcp_port_is_open`
(source lines 39-56): either name resolution fails (`socket.gaierror`)
or a connection result code is returned. -/
inductive ConnectOutcome where
  | gaierror : ConnectOutcome
  | code : Int → ConnectOutcome
deriving DecidableEq

/-- `_tcp_port_is_open` (source lines 39-56): `True` exactly when the
connection attempt returned result code 0; a resolution failure returns
`False`.  The shutdown/close of the socket has no bearing on the result. -/
def tcp_port_is_open : ConnectOutcome → Bool
  | ConnectOutcome.gaierror => false
  | ConnectOutcome.code r => r == 0

/-- The readiness poll of `postgres_upgrade` (source lines 323-325):
`while not _tcp_port_is_open(port): time.sleep(1)`.  The network is an
oracle giving the outcome of the k-th connection attempt; `fuel` bounds
the number of attempts observed (a test-injected bound standing in for
the unbounded real loop).  The result is the index of the first
successful attempt, or `none` if no attempt within the bound succeeds. -/
def waitUntilUp (net : Nat → ConnectOutcome) : Nat → Nat → Option Nat
  | 0, _ => none
  | fuel + 1, k => if tcp_port_is_open (net k) then some k else waitUntilUp net fuel (k + 1)

/-- Per-version path under the data root: `os.path.join(POSTGRES_DATA_DIR,
str(version))` (source line 103). -/
def pgDataDir (version : Nat) : String := POSTGRES_DATA_DIR ++ "/" ++ toString version

/-- `os.path.join(self.data_dir, "main")` (source line 120). -/
def pgMainDir (version : Nat) : String := pgDataDir version ++ "/main"

/-- Binaries directory (source line 137); note the trailing slash. -/
def pgBinDir (version : Nat) : String := "/usr/lib/postgresql/" ++ toString version ++ "/bin/"

/-- Run directory created at source line 135; note the trailing slash. -/
def pgRunStatTmpDir (version : Nat) : String :=
  "/var/run/postgresql/" ++ toString version ++ "-main.pg_stat_tmp/"

/-- Temporary per-version configuration directory (source line 163). -/
def pgTmpConfDir (version : Nat) : String := "/var/tmp/postgresql/conf/" ++ toString version

/-- The error raised at source lines 106-112 when the data directory of an
upgrade target already exists: it names the offending path and the
remediation command. -/
def newDataDirMsg (d : String) : String :=
  "New data directory " ++ d ++
  " already exists; if the previous attempt to upgrade failed, run something like this:\n\n" ++
  "    rm -rf " ++ d ++
  "\n\n\non a container, or adjust the path on the host, or revert to old ZFS snapshot."

/-- The lines of the configuration overlay appended to the copied
`postgresql.conf` (source lines 170-183), exactly as the triple-quoted
f-string writes them, split at newlines: two leading blank lines, one
override line per key (each indented by the twelve spaces of the Python
source indentation), a blank line, the caller-supplied extra directive,
a blank line, and the trailing indentation of the closing quotes. -/
def overlayLines (version port : Nat) (tmp_conf_dir extra : String) : List String :=
  [ "",
    "",
    "            port = " ++ toString port,
    "            data_directory = '/var/lib/postgresql/" ++ toString version ++ "/main'",
    "            hba_file = '" ++ tmp_conf_dir ++ "/pg_hba.conf'",
    "            ident_file = '" ++ tmp_conf_dir ++ "/pg_ident.conf'",
    "            external_pid_file = '/var/run/postgresql/" ++ toString version ++ "-main.pid'",
    "            cluster_name = '" ++ toString version ++ "/main'",
    "            stats_temp_directory = '/var/run/postgresql/" ++ toString version ++ "-main.pg_stat_tmp'",
    "",
    "            " ++ extra,
    "",
    "            " ]

/-- The fields of `_PostgresVersion` (source lines 63-75, `__slots__`),
plus the flag distinguishing upgrade targets and, as `overlay`, the record
of the configuration text the constructor appended to the copied
`postgresql.conf`.  The four tool paths are set only for upgrade targets
(source lines 144-160). -/
structure PostgresVersion where
  version : Nat
  port : Nat
  data_dir : String
  main_dir : String
  bin_dir : String
  tmp_conf_dir : String
  is_target : Bool
  initdb : Option String
  pg_upgrade : Option String
  vacuumdb : Option String
  postgres : Option String
  overlay : List String
deriving DecidableEq

/-- The field values a successful `_PostgresVersion.__init__` assigns; every
assignment in the constructor is a pure function of the version number, the
port, the target flag and the extra configuration directive. -/
def descriptorOf (version port : Nat) (target : Bool) (extra : String) : PostgresVersion :=
  { version := version
    port := port
    data_dir := pgDataDir version
    main_dir := pgMainDir version
    bin_dir := pgBinDir version
    tmp_conf_dir := pgTmpConfDir version
    is_target := target
    initdb := if target then some (pathJoin (pgBinDir version) "initdb") else none
    pg_upgrade := if target then some (pathJoin (pgBinDir version) "pg_upgrade") else none
    vacuumdb := if target then some (pathJoin (pgBinDir version) "vacuumdb") else none
    postgres := if target then some (pathJoin (pgBinDir version) "postgres") else none
    overlay := overlayLines version port (pgTmpConfDir version) extra }

/-- `str.isdecimal` followed by `int(str)`: a nonempty all-digit string and
its decimal value. -/
def decimalToNat? (s : String) : Option Nat :=
  if !s.data.isEmpty && s.data.all Char.isDigit then
    some (s.data.foldl (fun acc c => acc * 10 + (c.toNat - 48)) 0)
  else
    none

/-- `_PostgresVersion._current_postgresql_config_path` (source lines 77-91):
locates the single active configuration set under `/etc/postgresql/`,
failing if there is not exactly one candidate, if its name is not decimal,
or if its `postgresql.conf` is missing. -/
def current_postgresql_config_path (fs : FS) : Except String String :=
  match fs.etcList with
  | [current] =>
    match decimalToNat? current with
    | none => Except.error ("Invalid PostgreSQL version: " ++ current)
    | some n =>
      let path := "/etc/postgresql/" ++ toString n ++ "/main"
      if fs.isFile (path ++ "/postgresql.conf") then Except.ok path
      else Except.error ("postgresql.conf does not exist in " ++ path ++ ".")
  | other =>
    Except.error ("More / less than one PostgreSQL configuration set has been found: "
      ++ toString other)

/-- The read-only data-directory preconditions of `_PostgresVersion.__init__`
(source lines 104-132), in source order: an upgrade target must have no
pre-existing data directory; the starting version must have an accessible
data directory and main directory, a `PG_VERSION` marker file, and no
`postmaster.pid`.  Descriptors that are neither targets nor the starting
version are not checked.  All five checks only query the filesystem. -/
def dataDirChecks (fs : FS) (version : Nat) (target starting : Bool) : Except String Unit :=
  let data_dir := pgDataDir version
  let main_dir := pgMainDir version
  if target && fs.ex data_dir then
    Except.error (newDataDirMsg data_dir)
  else if !target && starting && !dir_exists_and_accessible fs data_dir then
    Except.error ("Old data directory " ++ data_dir ++
      " does not exist or is inaccessible; forgot to mount it?")
  else if !target && starting && !dir_exists_and_accessible fs main_dir then
    Except.error ("Old main directory " ++ main_dir ++ " does not exist or is inaccessible.")
  else if !target && starting && !fs.isFile (main_dir ++ "/PG_VERSION") then
    Except.error (main_dir ++ "/PG_VERSION does not exist or is inaccessible.")
  else if !target && starting && fs.ex (main_dir ++ "/postmaster.pid") then
    Except.error (main_dir ++ "/postmaster.pid exists; is the database running?")
  else
    Except.ok ()

/-- The read-only binaries checks of `_PostgresVersion.__init__`
(source lines 137-160): the binaries directory must be accessible (the
source performs this identical check twice, lines 139-142), and for an
upgrade target the four tools must be executable. -/
def binChecks (fs : FS) (version : Nat) (target : Bool) : Except String Unit :=
  let bin_dir := pgBinDir version
  if !dir_exists_and_accessible fs bin_dir then
    Except.error ("Binaries directory " ++ bin_dir ++ " does not exist or is inaccessible.")
  else if target && !fs.accX (pathJoin bin_dir "initdb") then
    Except.error ("'initdb' at " ++ pathJoin bin_dir "initdb" ++ " does not exist.")
  else if target && !fs.accX (pathJoin bin_dir "pg_upgrade") then
    Except.error ("'pg_upgrade' at " ++ pathJoin bin_dir "pg_upgrade" ++ " does not exist.")
  else if target && !fs.accX (pathJoin bin_dir "vacuumdb") then
    Except.error ("'vacuumdb' at " ++ pathJoin bin_dir "vacuumdb" ++ " does not exist.")
  else if target && !fs.accX (pathJoin bin_dir "postgres") then
    Except.error ("'postgres' at " ++ pathJoin bin_dir "postgres" ++ " does not exist.")
  else
    Except.ok ()

/-- `_PostgresVersion.__init__` (source lines 93-183), with the checks, the
filesystem mutations and the raises in source order: the data-directory
preconditions (lines 104-132, `dataDirChecks`), run-directory creation
(line 135), the binaries checks (lines 137-160, `binChecks`, against the
state after the run-directory creation), destructive recreation of the
temporary configuration directory (lines 163-166), locating the active
configuration (line 167), and the configuration copy whose `postgresql.conf`
receives the overlay of `descriptorOf` (lines 168-183).  A raise returns the
filesystem state reached so far, as a Python exception would leave it. -/
def mkPostgresVersion (fs : FS) (version : Nat) (target starting : Bool)
    (port : Nat) (extra : String) : FS × Except String PostgresVersion :=
  match dataDirChecks fs version target starting with
  | Except.error e => (fs, Except.error e)
  | Except.ok _ =>
    let fs1 := fs.mkdirp (pgRunStatTmpDir version)
    match binChecks fs1 version target with
    | Except.error e => (fs1, Except.error e)
    | Except.ok _ =>
      let tmp := pgTmpConfDir version
      let fs2 := if fs1.ex tmp then fs1.rmtree tmp else fs1
      match current_postgresql_config_path fs2 with
      | Except.error e => (fs2, Except.error e)
      | Except.ok confPath =>
        (fs2.copytree confPath tmp, Except.ok (descriptorOf version port target extra))

/-- Every field of a successfully constructed descriptor is the pure
function of version, port, target flag and extra directive that the
constructor assigns. -/
theorem mkPostgresVersion_ok (fs fs' : FS) (version : Nat) (target starting : Bool)
    (port : Nat) (extra : String) (d : PostgresVersion)
    (h : mkPostgresVersion fs version target starting port extra = (fs', Except.ok d)) :
    d = descriptorOf version port target extra := by
  simp only [mkPostgresVersion] at h
  repeat' split at h
  all_goals simp only [Prod.mk.injEq, Except.ok.injEq, reduceCtorEq, and_false,
    false_and, and_true] at h
  all_goals exact h.2.symm


/-- `_PostgresVersionPair` (source lines 186-194). -/
structure PostgresVersionPair where
  old_version : PostgresVersion
  new_version : PostgresVersion
deriving DecidableEq

/-- The pair-construction loop of `postgres_upgrade` (source lines 239-259),
unrolled on the number of remaining iterations of
`for version in range(source_version, target_version)`.  Each iteration
constructs the old descriptor with the running counter port and the empty
extra directive, then the new descriptor for the next version with the
counter plus one and the maintenance-work-memory directive, then advances
the counter by two.  An exception from either constructor aborts the loop,
keeping the filesystem state of the raise site. -/
def buildPairsAux (mwm : String) (source : Nat) :
    Nat → Nat → Nat → FS → FS × Except String (List PostgresVersionPair)
  | 0, _, _, fs => (fs, Except.ok [])
  | n + 1, version, current_port, fs =>
    match mkPostgresVersion fs version false (version == source) current_port "" with
    | (fs1, Except.error e) => (fs1, Except.error e)
    | (fs1, Except.ok oldv) =>
      match mkPostgresVersion fs1 (version + 1) true false (current_port + 1) mwm with
      | (fs2, Except.error e) => (fs2, Except.error e)
      | (fs2, Except.ok newv) =>
        match buildPairsAux mwm source n (version + 1) (current_port + 2) fs2 with
        | (fs3, Except.error e) => (fs3, Except.error e)
        | (fs3, Except.ok rest) =>
          (fs3, Except.ok ({ old_version := oldv, new_version := newv } :: rest))

/-- The port counter starts at the fixed base 50432 (source line 240). -/
def PORT_BASE : Nat := 50432

/-- The complete pair-construction phase of `postgres_upgrade`
(source lines 239-259): `target - source` loop iterations starting at the
source version with the fixed port base. -/
def buildPairs (fs : FS) (mwm : String) (source target : Nat) :
    FS × Except String (List PostgresVersionPair) :=
  buildPairsAux mwm source (target - source) source PORT_BASE fs

/-- The flat list of ports of a chain, in construction order: for every
pair, the port of the old descriptor then the port of the new one. -/
def portsOf : List PostgresVersionPair → List Nat
  | [] => []
  | pair :: rest => pair.old_version.port :: pair.new_version.port :: portsOf rest

/-- The preflight checks of `postgres_upgrade` (source lines 206-215), in
source order: data root present and accessible, invoking user is the
expected service account, and the target version strictly newer than the
source.  These statements only query state, so the filesystem is returned
unchanged on every path. -/
def preflight (fs : FS) (user : String) (source_version target_version : Nat) :
    FS × Except String Unit :=
  if !dir_exists_and_accessible fs POSTGRES_DATA_DIR then
    (fs, Except.error (POSTGRES_DATA_DIR ++ " does not exist or is inaccessible."))
  else if user != POSTGRES_USER then
    (fs, Except.error ("This script is to be run as '" ++ POSTGRES_USER ++ "' user."))
  else if target_version ≤ source_version then
    (fs, Except.error ("Target version " ++ toString target_version ++
      " is not newer than source version " ++ toString source_version ++ "."))
  else
    (fs, Except.ok ())

/-- The leftover-file patterns of source lines 221-225. -/
def cruftPatterns : List String := ["pg_*.log", "pg_*.custom", "pg_upgrade_dump_globals.sql"]

/-- The inner loop of the leftover cleanup (source lines 227-229):
`for file in glob.glob(os.path.join(POSTGRES_DATA_DIR, pattern))`.
Faithful to the source bug at line 229, `os.unlink` is invoked on the
bare `pattern` string, not on the matched `file` path, so the unlinked
path is the pattern resolved against the working directory. -/
def unlinkMatches (cwd pattern : String) :
    List String → FS → FS × Except String Unit
  | [], fs => (fs, Except.ok ())
  | _file :: rest, fs =>
    match fs.unlink (resolvePath cwd pattern) with
    | (fs1, Except.error e) => (fs1, Except.error e)
    | (fs1, Except.ok ()) => unlinkMatches cwd pattern rest fs1

/-- The leftover cleanup of `postgres_upgrade` (source lines 220-229), over
the list of patterns; the glob results are supplied by an oracle keyed by
the full glob expression. -/
def cleanupLeftovers (glob : String → List String) (cwd : String) :
    List String → FS → FS × Except String Unit
  | [], fs => (fs, Except.ok ())
  | pattern :: ps, fs =>
    match unlinkMatches cwd pattern (glob (POSTGRES_DATA_DIR ++ "/" ++ pattern)) fs with
    | (fs1, Except.error e) => (fs1, Except.error e)
    | (fs1, Except.ok ()) => cleanupLeftovers glob cwd ps fs1

/-- `maintenance_work_mem_statement` (source lines 231-235); Python
`int(ram_size / 10)` truncates the positive quotient, which is natural
division. -/
def maintenanceWorkMemStatement (ram_size : Nat) : String :=
  "maintenance_work_mem = " ++ toString (ram_size / 10) ++ "MB"

/-- Exit codes of the external tools, keyed by version: `initdb` runs on the
new version of a hop, the compatibility check and the real upgrade are keyed
by the old version of the hop they upgrade from. -/
structure ExitOracle where
  initdbExit : Nat → Nat
  checkExit : Nat → Nat
  upgradeExit : Nat → Nat

/-- Observable steps of the per-pair upgrade loop (source lines 261-312). -/
inductive Event where
  | mkdirMain : String → Event
  | initdbRun : Nat → Nat → Event
  | checkRun : Nat → Nat → Event
  | upgradeRun : Nat → Nat → Event
  | purgeOldData : Nat → String → Event
  | scriptsCleanup : Nat → Event
deriving DecidableEq

/-- One iteration of the upgrade loop (source lines 261-312) as the trace of
its steps and whether it completed: create the new main directory and run
`initdb` (lines 265-274), run the upgrade command with `--check`
(lines 291-292), run the real upgrade (lines 294-295), and only then purge
the old data directory with `shutil.rmtree(pair.old_version.data_dir)`
(lines 297-298) and clean up the byproduct scripts (lines 300-310).  A
nonzero exit of any `subprocess.check_call` raises, ending the trace
immediately. -/
def runHop (ex : ExitOracle) (pair : PostgresVersionPair) : List Event × Bool :=
  let e1 := ex.initdbExit pair.new_version.version
  let t1 := [Event.mkdirMain pair.new_version.main_dir,
             Event.initdbRun pair.new_version.version e1]
  if e1 ≠ 0 then (t1, false) else
  let e2 := ex.checkExit pair.old_version.version
  let t2 := t1 ++ [Event.checkRun pair.old_version.version e2]
  if e2 ≠ 0 then (t2, false) else
  let e3 := ex.upgradeExit pair.old_version.version
  let t3 := t2 ++ [Event.upgradeRun pair.old_version.version e3]
  if e3 ≠ 0 then (t3, false) else
  (t3 ++ [Event.purgeOldData pair.old_version.version pair.old_version.data_dir,
          Event.scriptsCleanup pair.old_version.version], true)

/-- The loop `for pair in upgrade_pairs` (source line 261): hops run in
order; a raised exception aborts the whole run, so a failed hop ends the
trace. -/
def runChain (ex : ExitOracle) : List PostgresVersionPair → List Event × Bool
  | [] => ([], true)
  | pair :: rest =>
    let hop := runHop ex pair
    if hop.2 then
      let tail := runChain ex rest
      (hop.1 ++ tail.1, tail.2)
    else
      (hop.1, false)

/-- The ambient inputs of one invocation of `postgres_upgrade`: initial
filesystem, invoking user, working directory, the exit code of
`update_memory_config.sh` (source line 218), the container memory limit
(source line 231), the glob oracle for the leftover cleanup, and the exit
codes of the upgrade tools. -/
structure Env where
  fs : FS
  user : String
  cwd : String
  memCfgExit : Nat
  ramSize : Nat
  glob : String → List String
  exits : ExitOracle

/-- `postgres_upgrade` (source lines 197-312) up to the end of the per-pair
upgrade loop: preflight checks, memory-configuration script, leftover
cleanup, RAM-size assertion, pair construction, and the hop loop.  The
final single-server phase (start, readiness wait, vacuum, shutdown;
source lines 314-342) is modelled separately by `waitUntilUp` because its
polling loop has no termination bound.  The hop loop itself is modelled by
its event trace; on success the result carries the constructed pairs and
the trace. -/
def postgres_upgrade (env : Env) (source_version target_version : Nat) :
    FS × Except String (List PostgresVersionPair × List Event) :=
  match preflight env.fs env.user source_version target_version with
  | (fs, Except.error e) => (fs, Except.error e)
  | (fs, Except.ok ()) =>
    if env.memCfgExit ≠ 0 then
      (fs, Except.error "CalledProcessError: update_memory_config.sh")
    else
      match cleanupLeftovers env.glob env.cwd cruftPatterns fs with
      | (fs1, Except.error e) => (fs1, Except.error e)
      | (fs1, Except.ok ()) =>
        if env.ramSize = 0 then
          (fs1, Except.error "AssertionError: RAM size can't be zero.")
        else
          let mwm := maintenanceWorkMemStatement env.ramSize
          match buildPairs fs1 mwm source_version target_version with
          | (fs2, Except.error e) => (fs2, Except.error e)
          | (fs2, Except.ok pairs) =>
            let chain := runChain env.exits pairs
            if chain.2 then (fs2, Except.ok (pairs, chain.1))
            else (fs2, Except.error "CalledProcessError: upgrade hop failed")

/-- Shape of a successfully built (suffix of a) chain: `n` pairs, the k-th
pair made of the non-target descriptor for version `v + k` at port
`p + 2 k` and the target descriptor for version `v + k + 1` at port
`p + 2 k + 1`, so that the ports, in construction order, are the
consecutive block starting at `p`. -/
theorem buildPairsAux_ok (mwm : String) (source : Nat) :
    ∀ (n v p : Nat) (fs fs' : FS) (ps : List PostgresVersionPair),
      buildPairsAux mwm source n v p fs = (fs', Except.ok ps) →
      ps.length = n ∧
      (∀ k (hk : k < ps.length),
        (ps.get ⟨k, hk⟩).old_version = descriptorOf (v + k) (p + 2 * k) false "" ∧
        (ps.get ⟨k, hk⟩).new_version = descriptorOf (v + k + 1) (p + 2 * k + 1) true mwm) ∧
      portsOf ps = List.range' p (2 * n) 1 := by
  intro n
  induction n with
  | zero =>
    intro v p fs fs' ps h
    simp only [buildPairsAux, Prod.mk.injEq, Except.ok.injEq] at h
    refine ⟨?_, ?_, ?_⟩
    · simp [← h.2]
    · intro k hk
      rw [← h.2] at hk
      exact absurd hk (by simp)
    · simp [← h.2, portsOf]
  | succ n ih =>
    intro v p fs fs' ps h
    simp only [buildPairsAux] at h
    split at h
    · exact absurd h (by simp)
    · rename_i fs1 oldv heq1
      split at h
      · exact absurd h (by simp)
      · rename_i fs2 newv heq2
        split at h
        · exact absurd h (by simp)
        · rename_i fs3 rest heq3
          simp only [Prod.mk.injEq, Except.ok.injEq] at h
          obtain ⟨-, hps⟩ := h
          obtain ⟨hlen, hget, hports⟩ := ih (v + 1) (p + 2) fs2 fs3 rest heq3
          have hold : oldv = descriptorOf v p false "" :=
            mkPostgresVersion_ok fs fs1 v false (v == source) p "" oldv heq1
          have hnew : newv = descriptorOf (v + 1) (p + 1) true mwm :=
            mkPostgresVersion_ok fs1 fs2 (v + 1) true false (p + 1) mwm newv heq2
          subst hps
          refine ⟨by simp [hlen], ?_, ?_⟩
          · intro k hk
            match k with
            | 0 =>
              refine ⟨by simpa using hold, by simpa using hnew⟩
            | k + 1 =>
              have hk' : k < rest.length := by
                simpa using hk
              obtain ⟨h1, h2⟩ := hget k hk'
              have e1 : v + 1 + k = v + (k + 1) := by omega
              have e2 : p + 2 + 2 * k = p + 2 * (k + 1) := by omega
              have e3 : v + 1 + k + 1 = v + (k + 1) + 1 := by omega
              have e4 : p + 2 + 2 * k + 1 = p + 2 * (k + 1) + 1 := by omega
              rw [e1, e2] at h1
              rw [e3, e4] at h2
              exact ⟨by simpa using h1, by simpa using h2⟩
          · rw [portsOf, hold, hnew, hports]
            have h21 : 2 * (n + 1) = 2 * n + 1 + 1 := by omega
            rw [h21, List.range'_succ, List.range'_succ]
            have hpp : p + 1 + 1 = p + 2 := by omega
            rw [hpp]
            rfl

/-- Claim C1: for source < target with all validations succeeding, the chain
has exactly target - source pairs, the k-th pair upgrades from version
source + k to source + k + 1, ports are taken from the counter starting at
50432 (old gets the counter, new the counter plus one, advancing by two per
hop), and the assigned ports are strictly increasing, hence pairwise
disjoint, across the chain. -/
theorem chain_shape_and_ports (fs fs' : FS) (mwm : String) (source target : Nat)
    (ps : List PostgresVersionPair)
    (hst : source < target)
    (h : buildPairs fs mwm source target = (fs', Except.ok ps)) :
    ps.length = target - source ∧
    (∀ k (hk : k < ps.length),
      (ps.get ⟨k, hk⟩).old_version.version = source + k ∧
      (ps.get ⟨k, hk⟩).new_version.version = (ps.get ⟨k, hk⟩).old_version.version + 1 ∧
      (ps.get ⟨k, hk⟩).old_version.port = PORT_BASE + 2 * k ∧
      (ps.get ⟨k, hk⟩).new_version.port = PORT_BASE + 2 * k + 1) ∧
    portsOf ps = List.range' PORT_BASE (2 * (target - source)) 1 ∧
    List.Pairwise (· < ·) (portsOf ps) := by
  obtain ⟨hlen, hget, hports⟩ :=
    buildPairsAux_ok mwm source (target - source) source PORT_BASE fs fs' ps h
  refine ⟨hlen, ?_, hports, ?_⟩
  · intro k hk
    obtain ⟨h1, h2⟩ := hget k hk
    rw [h1, h2]
    exact ⟨rfl, rfl, rfl, rfl⟩
  · rw [hports]
    exact List.pairwise_lt_range' PORT_BASE (2 * (target - source)) 1 (by norm_num)

/-- Directories of a concrete healthy environment for an 11-to-13 upgrade:
the data root, the source data and main directories, the three binaries
directories and the single active configuration directory. -/
def wDirs : List String :=
  [ "/var/lib/postgresql",
    "/var/lib/postgresql/11",
    "/var/lib/postgresql/11/main",
    "/usr/lib/postgresql/11/bin/",
    "/usr/lib/postgresql/12/bin/",
    "/usr/lib/postgresql/13/bin/",
    "/etc/postgresql/11/main" ]

/-- Files of the concrete healthy environment: the version marker of the
source version and the active configuration file. -/
def wFiles : List String :=
  [ "/var/lib/postgresql/11/main/PG_VERSION",
    "/etc/postgresql/11/main/postgresql.conf" ]

/-- Executable paths of the concrete healthy environment: every directory and
the four tools of each upgrade-target version. -/
def wXs : List String :=
  wDirs ++
  [ "/usr/lib/postgresql/12/bin/initdb",
    "/usr/lib/postgresql/12/bin/pg_upgrade",
    "/usr/lib/postgresql/12/bin/vacuumdb",
    "/usr/lib/postgresql/12/bin/postgres",
    "/usr/lib/postgresql/13/bin/initdb",
    "/usr/lib/postgresql/13/bin/pg_upgrade",
    "/usr/lib/postgresql/13/bin/vacuumdb",
    "/usr/lib/postgresql/13/bin/postgres" ]

/-- A concrete filesystem on which every validation of an 11-to-13 chain
succeeds: the listed directories and files exist, nothing else does, and
exactly one configuration set is installed. -/
def wFS : FS :=
  { ex := fun p => wDirs.contains p || wFiles.contains p
    isDir := fun p => wDirs.contains p
    isFile := fun p => wFiles.contains p
    accX := fun p => wXs.contains p
    etcList := ["11"] }

/-- The chain the healthy environment produces for an 11-to-13 upgrade. -/
def wPairs : List PostgresVersionPair :=
  [ { old_version := descriptorOf 11 50432 false ""
      new_version := descriptorOf 12 50433 true (maintenanceWorkMemStatement 1000) },
    { old_version := descriptorOf 12 50434 false ""
      new_version := descriptorOf 13 50435 true (maintenanceWorkMemStatement 1000) } ]

/-- The payload of a successful outcome, for decidable statements about
concrete runs. -/
def okValue {ε α : Type} : Except ε α → Option α
  | Except.ok a => some a
  | Except.error _ => none

/-- Recover the outcome equation from its decidable projection. -/
theorem okValue_eq_some {ε α : Type} (x : Except ε α) (a : α)
    (h : okValue x = some a) : x = Except.ok a := by
  cases x with
  | ok b => simpa [okValue] using congrArg (Option.getD · b) h
  | error e => simp [okValue] at h

/-- Witness for the chain-shape theorem: on the concrete healthy filesystem
the 11-to-13 chain builds successfully, and the theorem yields its length
and its port assignment. -/
theorem chain_shape_and_ports_witness :
    ∃ fs' ps, buildPairs wFS (maintenanceWorkMemStatement 1000) 11 13 = (fs', Except.ok ps) ∧
      ps.length = 2 ∧ portsOf ps = [50432, 50433, 50434, 50435] := by
  have hps : (buildPairs wFS (maintenanceWorkMemStatement 1000) 11 13).2 = Except.ok wPairs :=
    okValue_eq_some _ _ (by decide)
  have heq : buildPairs wFS (maintenanceWorkMemStatement 1000) 11 13 =
      ((buildPairs wFS (maintenanceWorkMemStatement 1000) 11 13).1, Except.ok wPairs) := by
    rw [← hps]
  refine ⟨_, wPairs, heq,
    (chain_shape_and_ports _ _ _ 11 13 _ (by norm_num) heq).1, ?_⟩
  rw [(chain_shape_and_ports _ _ _ 11 13 _ (by norm_num) heq).2.2.1]
  rfl

/-- Counterexample to claim C2: in the concrete healthy 11-to-13 run the
chain holds two distinct descriptors for the intermediate version 12 (the
new descriptor of the first hop and the old descriptor of the second), and
they carry the same tmpConfDir path, so that path is not used by exactly
one descriptor. -/
theorem tmp_conf_dir_shared_counterexample :
    ∃ fs' p0 p1,
      buildPairs wFS (maintenanceWorkMemStatement 1000) 11 13 = (fs', Except.ok [p0, p1]) ∧
      p0.new_version ≠ p1.old_version ∧
      p0.new_version.tmp_conf_dir = p1.old_version.tmp_conf_dir := by
  have hps : (buildPairs wFS (maintenanceWorkMemStatement 1000) 11 13).2 = Except.ok wPairs :=
    okValue_eq_some _ _ (by decide)
  have heq : buildPairs wFS (maintenanceWorkMemStatement 1000) 11 13 =
      ((buildPairs wFS (maintenanceWorkMemStatement 1000) 11 13).1, Except.ok wPairs) := by
    rw [← hps]
  exact ⟨_, _, _, heq, by decide, by decide⟩

/-- Claim C2 (amended): ports are pairwise distinct across the descriptors
of a run, but filesystem paths are version-keyed rather than
descriptor-exclusive: in every chain, the new descriptor of a hop and the
old descriptor of the following hop describe the same intermediate version
and share their data directory, main directory and tmpConfDir paths (the
tmpConfDir being destroyed and recreated by the later construction rather
than being a fresh directory of its own). -/
theorem ports_unique_paths_version_keyed (fs fs' : FS) (mwm : String)
    (source target : Nat) (ps : List PostgresVersionPair)
    (h : buildPairs fs mwm source target = (fs', Except.ok ps)) :
    List.Pairwise (· ≠ ·) (portsOf ps) ∧
    (∀ k (hk : k + 1 < ps.length),
      (ps.get ⟨k, Nat.lt_of_succ_lt hk⟩).new_version.tmp_conf_dir
        = (ps.get ⟨k + 1, hk⟩).old_version.tmp_conf_dir ∧
      (ps.get ⟨k, Nat.lt_of_succ_lt hk⟩).new_version.data_dir
        = (ps.get ⟨k + 1, hk⟩).old_version.data_dir ∧
      (ps.get ⟨k, Nat.lt_of_succ_lt hk⟩).new_version.main_dir
        = (ps.get ⟨k + 1, hk⟩).old_version.main_dir) := by
  obtain ⟨hlen, hget, hports⟩ :=
    buildPairsAux_ok mwm source (target - source) source PORT_BASE fs fs' ps h
  constructor
  · rw [hports]
    exact (List.pairwise_lt_range' PORT_BASE (2 * (target - source)) 1 (by norm_num)).imp
      Nat.ne_of_lt
  · intro k hk
    obtain ⟨-, hnewk⟩ := hget k (Nat.lt_of_succ_lt hk)
    obtain ⟨holdk1, -⟩ := hget (k + 1) hk
    have harith : source + k + 1 = source + (k + 1) := by omega
    rw [hnewk, holdk1, harith]
    exact ⟨rfl, rfl, rfl⟩

/-- Witness for the amended resource theorem, on the concrete healthy
11-to-13 run: the four ports are pairwise distinct and the two descriptors
of the intermediate version 12 share their tmpConfDir path. -/
theorem ports_unique_paths_version_keyed_witness :
    List.Pairwise (· ≠ ·) (portsOf wPairs) ∧
      (wPairs.get ⟨0, by norm_num [wPairs]⟩).new_version.tmp_conf_dir
        = (wPairs.get ⟨1, by norm_num [wPairs]⟩).old_version.tmp_conf_dir := by
  have hps : (buildPairs wFS (maintenanceWorkMemStatement 1000) 11 13).2 = Except.ok wPairs :=
    okValue_eq_some _ _ (by decide)
  have heq : buildPairs wFS (maintenanceWorkMemStatement 1000) 11 13 =
      ((buildPairs wFS (maintenanceWorkMemStatement 1000) 11 13).1, Except.ok wPairs) := by
    rw [← hps]
  obtain ⟨h1, h2⟩ := ports_unique_paths_version_keyed wFS _ _ 11 13 wPairs heq
  exact ⟨h1, (h2 0 (by norm_num [wPairs])).1⟩

/-- Case analysis of one hop: either all three tool invocations exit zero
and the hop trace is the full six-step trace ending in the purge and the
script cleanup, or the hop fails and its trace holds no purge event. -/
theorem runHop_cases (ex : ExitOracle) (pair : PostgresVersionPair) :
    (ex.initdbExit pair.new_version.version = 0 ∧
     ex.checkExit pair.old_version.version = 0 ∧
     ex.upgradeExit pair.old_version.version = 0 ∧
     runHop ex pair =
       ([Event.mkdirMain pair.new_version.main_dir,
         Event.initdbRun pair.new_version.version 0,
         Event.checkRun pair.old_version.version 0,
         Event.upgradeRun pair.old_version.version 0,
         Event.purgeOldData pair.old_version.version pair.old_version.data_dir,
         Event.scriptsCleanup pair.old_version.version], true)) ∨
    ((runHop ex pair).2 = false ∧ ∀ v d, Event.purgeOldData v d ∉ (runHop ex pair).1) := by
  by_cases h1 : ex.initdbExit pair.new_version.version = 0
  · by_cases h2 : ex.checkExit pair.old_version.version = 0
    · by_cases h3 : ex.upgradeExit pair.old_version.version = 0
      · exact Or.inl ⟨h1, h2, h3, by simp [runHop, h1, h2, h3]⟩
      · refine Or.inr ⟨by simp [runHop, h1, h2, h3], ?_⟩
        intro v d
        simp [runHop, h1, h2, h3]
    · refine Or.inr ⟨by simp [runHop, h1, h2], ?_⟩
      intro v d
      simp [runHop, h1, h2]
  · refine Or.inr ⟨by simp [runHop, h1], ?_⟩
    intro v d
    simp [runHop, h1]

/-- Claim C3: in every run, a purge of an old data directory appears in the
trace only at a position strictly after a real-upgrade event with exit code
zero for the same version; a nonzero exit of the compatibility check or of
the real upgrade for a hop means the trace holds no purge of that hop, and
a nonzero exit of the initialization of a hop (keyed by its new version,
which in a well-formed chain is the old version plus one) likewise means no
purge of that hop. -/
theorem purge_only_after_successful_upgrade (ex : ExitOracle)
    (pairs : List PostgresVersionPair) :
    (∀ (i v : Nat) (d : String), (runChain ex pairs).1[i]? = some (Event.purgeOldData v d) →
        ∃ j < i, (runChain ex pairs).1[j]? = some (Event.upgradeRun v 0)) ∧
    (∀ v d, (ex.checkExit v ≠ 0 ∨ ex.upgradeExit v ≠ 0) →
        Event.purgeOldData v d ∉ (runChain ex pairs).1) ∧
    ((∀ pr ∈ pairs, pr.new_version.version = pr.old_version.version + 1) →
        ∀ v d, ex.initdbExit (v + 1) ≠ 0 →
          Event.purgeOldData v d ∉ (runChain ex pairs).1) := by
  induction pairs with
  | nil =>
    refine ⟨?_, ?_, ?_⟩ <;> intro _ _ <;> simp [runChain]
  | cons pair rest ih =>
    obtain ⟨ih1, ih2, ih3⟩ := ih
    rcases runHop_cases ex pair with ⟨h1, h2, h3, hrh⟩ | ⟨hfail, hnop⟩
    · have hchain : (runChain ex (pair :: rest)).1 =
          [Event.mkdirMain pair.new_version.main_dir,
           Event.initdbRun pair.new_version.version 0,
           Event.checkRun pair.old_version.version 0,
           Event.upgradeRun pair.old_version.version 0,
           Event.purgeOldData pair.old_version.version pair.old_version.data_dir,
           Event.scriptsCleanup pair.old_version.version] ++ (runChain ex rest).1 := by
        simp [runChain, hrh]
      refine ⟨?_, ?_, ?_⟩
      · intro i v d hi
        rw [hchain] at hi
        by_cases hilt : i < 6
        · rw [List.getElem?_append_left (by simpa using hilt)] at hi
          interval_cases i
          · simp at hi
          · simp at hi
          · simp at hi
          · simp at hi
          · simp only [List.getElem?_cons_succ, List.getElem?_cons_zero, Option.some.injEq,
              Event.purgeOldData.injEq] at hi
            obtain ⟨hveq, -⟩ := hi
            refine ⟨3, by norm_num, ?_⟩
            rw [hchain, List.getElem?_append_left (by norm_num), ← hveq]
            rfl
          · simp at hi
        · push_neg at hilt
          obtain ⟨i2, rfl⟩ := Nat.exists_eq_add_of_le hilt
          rw [List.getElem?_append_right (by simp)] at hi
          obtain ⟨j2, hj2lt, hj2⟩ := ih1 i2 v d (by simpa using hi)
          refine ⟨6 + j2, by omega, ?_⟩
          rw [hchain, List.getElem?_append_right (by simp)]
          simpa using hj2
      · intro v d hv
        rw [hchain]
        simp only [List.mem_append, List.mem_cons, List.not_mem_nil, or_false]
        rintro ((h | h | h | h | h | h) | h)
        · exact absurd h (by simp)
        · exact absurd h (by simp)
        · exact absurd h (by simp)
        · exact absurd h (by simp)
        · obtain ⟨hveq, -⟩ := Event.purgeOldData.inj h
          subst hveq
          rcases hv with hv | hv
          · exact hv h2
          · exact hv h3
        · exact absurd h (by simp)
        · exact ih2 v d hv h
      · intro hadj v d hinit
        rw [hchain]
        simp only [List.mem_append, List.mem_cons, List.not_mem_nil, or_false]
        rintro ((h | h | h | h | h | h) | h)
        · exact absurd h (by simp)
        · exact absurd h (by simp)
        · exact absurd h (by simp)
        · exact absurd h (by simp)
        · obtain ⟨hveq, -⟩ := Event.purgeOldData.inj h
          subst hveq
          have := hadj pair (by simp)
          rw [this] at h1
          exact hinit h1
        · exact absurd h (by simp)
        · exact ih3 (fun pr hpr => hadj pr (by simp [hpr])) v d hinit h
    · have hchain : runChain ex (pair :: rest) = ((runHop ex pair).1, false) := by
        simp [runChain, hfail]
      refine ⟨?_, ?_, ?_⟩
      · intro i v d hi
        rw [hchain] at hi
        exact absurd (List.getElem?_mem hi) (hnop v d)
      · intro v d _
        rw [hchain]
        exact hnop v d
      · intro _ v d _
        rw [hchain]
        exact hnop v d

/-- An oracle on which every external tool succeeds. -/
def wExits : ExitOracle :=
  { initdbExit := fun _ => 0, checkExit := fun _ => 0, upgradeExit := fun _ => 0 }

/-- An oracle on which the real upgrade of the 12-to-13 hop fails. -/
def wExitsUpgradeFail : ExitOracle :=
  { initdbExit := fun _ => 0, checkExit := fun _ => 0
    upgradeExit := fun v => if v == 12 then 1 else 0 }

/-- An oracle on which the initialization of version 12 fails. -/
def wExitsInitdbFail : ExitOracle :=
  { initdbExit := fun v => if v == 12 then 1 else 0, checkExit := fun _ => 0
    upgradeExit := fun _ => 0 }

/-- Witness for the purge-ordering theorem on the concrete 11-to-13 chain:
on the all-success oracle the purge of version 11 at trace position 4 is
preceded by its successful real upgrade; with a failing real upgrade the
trace never purges version 12; with a failing initialization of version 12
the trace never purges version 11. -/
theorem purge_only_after_successful_upgrade_witness :
    (∃ j < 4, (runChain wExits wPairs).1[j]? = some (Event.upgradeRun 11 0)) ∧
    Event.purgeOldData 12 (pgDataDir 12) ∉ (runChain wExitsUpgradeFail wPairs).1 ∧
    Event.purgeOldData 11 (pgDataDir 11) ∉ (runChain wExitsInitdbFail wPairs).1 := by
  refine ⟨?_, ?_, ?_⟩
  · exact (purge_only_after_successful_upgrade wExits wPairs).1 4 11 (pgDataDir 11) (by decide)
  · exact (purge_only_after_successful_upgrade wExitsUpgradeFail wPairs).2.1 12 (pgDataDir 12)
      (Or.inr (by decide))
  · exact (purge_only_after_successful_upgrade wExitsInitdbFail wPairs).2.2 (by decide) 11
      (pgDataDir 11) (by decide)

/-- Claim C4: constructing an upgrade-target descriptor whose data directory
already exists fails, touching nothing, with the error that names the
offending path and the remediation command removing that directory. -/
theorem target_data_dir_exists_rejected (fs : FS) (version : Nat) (starting : Bool)
    (port : Nat) (extra : String)
    (h : fs.ex (pgDataDir version) = true) :
    mkPostgresVersion fs version true starting port extra
      = (fs, Except.error (newDataDirMsg (pgDataDir version))) ∧
    ∃ s1 s2 s3, newDataDirMsg (pgDataDir version)
      = s1 ++ pgDataDir version ++ s2 ++ ("rm -rf " ++ pgDataDir version) ++ s3 := by
  constructor
  · have hd : dataDirChecks fs version true starting
        = Except.error (newDataDirMsg (pgDataDir version)) := by
      simp [dataDirChecks, h]
    simp [mkPostgresVersion, hd]
  · refine ⟨"New data directory ",
      " already exists; if the previous attempt to upgrade failed, run something like this:\n\n    ",
      "\n\n\non a container, or adjust the path on the host, or revert to old ZFS snapshot.", ?_⟩
    simp only [newDataDirMsg, String.append_assoc]
    rfl

/-- The healthy filesystem with a leftover data directory for version 13. -/
def wFSStale13 : FS :=
  { wFS with ex := fun p => p == "/var/lib/postgresql/13" || wFS.ex p }

/-- Witness for the target-rejection theorem: on the filesystem with a
leftover version-13 data directory, constructing the version-13 target
descriptor fails with the remediation-bearing error. -/
theorem target_data_dir_exists_rejected_witness :
    mkPostgresVersion wFSStale13 13 true false 50435 ""
      = (wFSStale13, Except.error (newDataDirMsg (pgDataDir 13))) ∧
    ∃ s1 s2 s3, newDataDirMsg (pgDataDir 13)
      = s1 ++ pgDataDir 13 ++ s2 ++ ("rm -rf " ++ pgDataDir 13) ++ s3 :=
  target_data_dir_exists_rejected wFSStale13 13 false 50435 "" (by decide)

/-- Claim C5: constructing the starting-version descriptor fails when the
main directory is missing or inaccessible, when the version marker file
PG_VERSION is absent, or when the live-server marker postmaster.pid is
present; the filesystem is untouched, and chain building from that source
version is rejected as well. -/
theorem source_version_invalid_rejected (fs : FS) (version port : Nat) (extra : String)
    (h : dir_exists_and_accessible fs (pgMainDir version) = false ∨
         fs.isFile (pgMainDir version ++ "/PG_VERSION") = false ∨
         fs.ex (pgMainDir version ++ "/postmaster.pid") = true) :
    (∃ m, mkPostgresVersion fs version false true port extra = (fs, Except.error m)) ∧
    (∀ (mwm : String) (target : Nat), version < target →
      ∃ m, buildPairs fs mwm version target = (fs, Except.error m)) := by
  have hd : ∃ m, dataDirChecks fs version false true = Except.error m := by
    by_cases h2 : dir_exists_and_accessible fs (pgDataDir version)
    · by_cases h3 : dir_exists_and_accessible fs (pgMainDir version)
      · by_cases h4 : fs.isFile (pgMainDir version ++ "/PG_VERSION")
        · rcases h with h | h | h
          · exact absurd h3 (by simp [h])
          · exact absurd h4 (by simp [h])
          · refine ⟨pgMainDir version ++ "/postmaster.pid exists; is the database running?", ?_⟩
            simp [dataDirChecks, h2, h3, h4, h]
        · refine ⟨pgMainDir version ++ "/PG_VERSION does not exist or is inaccessible.", ?_⟩
          simp [dataDirChecks, h2, h3, h4]
      · refine ⟨"Old main directory " ++ pgMainDir version ++
          " does not exist or is inaccessible.", ?_⟩
        simp [dataDirChecks, h2, h3]
    · refine ⟨"Old data directory " ++ pgDataDir version ++
        " does not exist or is inaccessible; forgot to mount it?", ?_⟩
      simp [dataDirChecks, h2]
  obtain ⟨m, hm⟩ := hd
  have hmk : ∀ (port : Nat) (extra : String),
      mkPostgresVersion fs version false true port extra = (fs, Except.error m) := by
    intro port extra
    simp [mkPostgresVersion, hm]
  refine ⟨⟨m, hmk port extra⟩, ?_⟩
  intro mwm target hlt
  obtain ⟨n, hn⟩ : ∃ n, target - version = n + 1 := ⟨target - version - 1, by omega⟩
  refine ⟨m, ?_⟩
  rw [buildPairs, hn, buildPairsAux]
  simp [hmk]

/-- The healthy filesystem without the version marker of the source
version. -/
def wFSNoMarker : FS :=
  { wFS with isFile := fun p => p == "/etc/postgresql/11/main/postgresql.conf" }

/-- Witness for the source-rejection theorem: without PG_VERSION under the
version-11 main directory, constructing the starting descriptor fails and
the 11-to-13 chain is rejected. -/
theorem source_version_invalid_rejected_witness :
    (∃ m, mkPostgresVersion wFSNoMarker 11 false true 50432 ""
      = (wFSNoMarker, Except.error m)) ∧
    (∃ m, buildPairs wFSNoMarker (maintenanceWorkMemStatement 1000) 11 13
      = (wFSNoMarker, Except.error m)) := by
  obtain ⟨h1, h2⟩ := source_version_invalid_rejected wFSNoMarker 11 50432 ""
    (Or.inr (Or.inl (by decide)))
  exact ⟨h1, h2 (maintenanceWorkMemStatement 1000) 13 (by norm_num)⟩

/-- Whether an outcome is a success. -/
def exceptIsOk {ε α : Type} (x : Except ε α) : Bool := (okValue x).isSome

/-- Claim C6: the preflight checks never modify the filesystem, and every
request with target not newer than source is rejected with an error. -/
theorem preflight_rejects_nonincreasing_read_only (fs : FS) (user : String)
    (source_version target_version : Nat) :
    (preflight fs user source_version target_version).1 = fs ∧
    (target_version ≤ source_version →
      exceptIsOk (preflight fs user source_version target_version).2 = false) := by
  constructor
  · unfold preflight
    repeat' split
    all_goals rfl
  · intro hle
    unfold preflight
    repeat' split
    all_goals first | rfl | exact absurd hle (by assumption)

/-- Witness for the preflight theorem: the request downgrading from 13 to 11
is rejected on the healthy filesystem, which is left untouched. -/
theorem preflight_rejects_nonincreasing_read_only_witness :
    (preflight wFS "postgres" 13 11).1 = wFS ∧
    exceptIsOk (preflight wFS "postgres" 13 11).2 = false :=
  ⟨(preflight_rejects_nonincreasing_read_only wFS "postgres" 13 11).1,
   (preflight_rejects_nonincreasing_read_only wFS "postgres" 13 11).2 (by norm_num)⟩

/-- A string prefixes an append whenever it prefixes the left part. -/
theorem strIsPrefixOf_append_true (p a b : String)
    (h : p.data.isPrefixOf a.data = true) : strIsPrefixOf p (a ++ b) = true := by
  have hp := List.isPrefixOf_iff_prefix.mp h
  unfold strIsPrefixOf
  rw [String.data_append, List.isPrefixOf_iff_prefix]
  exact hp.trans (List.prefix_append _ _)

/-- A string incomparable with the left part of an append prefixes neither
the left part nor the whole append. -/
theorem strIsPrefixOf_append_false (p a b : String)
    (h1 : p.data.isPrefixOf a.data = false) (h2 : a.data.isPrefixOf p.data = false) :
    strIsPrefixOf p (a ++ b) = false := by
  unfold strIsPrefixOf
  rw [String.data_append]
  cases hx : p.data.isPrefixOf (a.data ++ b.data) with
  | false => rfl
  | true =>
    exfalso
    have hp := List.isPrefixOf_iff_prefix.mp hx
    have ha : a.data <+: a.data ++ b.data := List.prefix_append _ _
    rcases List.prefix_or_prefix_of_prefix hp ha with hc | hc
    · have hc' := List.isPrefixOf_iff_prefix.mpr hc
      rw [h1] at hc'
      exact absurd hc' (by decide)
    · have hc' := List.isPrefixOf_iff_prefix.mpr hc
      rw [h2] at hc'
      exact absurd hc' (by decide)

/-- The required override keys of the generated configuration
(source lines 173-179). -/
def requiredConfKeys : List String :=
  ["port", "data_directory", "hba_file", "ident_file", "external_pid_file",
   "cluster_name", "stats_temp_directory"]

/-- A line of the overlay sets `key` when it starts with the source
indentation followed by the key and the assignment sign, exactly as the
f-string writes override lines. -/
def setsKey (key line : String) : Bool :=
  strIsPrefixOf ("            " ++ (key ++ " = ")) line

/-- Lines shorter than the shortest possible override prefix set no key. -/
theorem setsKey_short (key line : String) (h : line.data.length < 15) :
    setsKey key line = false := by
  unfold setsKey strIsPrefixOf
  cases hx : ("            " ++ (key ++ " = ")).data.isPrefixOf line.data with
  | false => rfl
  | true =>
    exfalso
    have hp := (List.isPrefixOf_iff_prefix.mp hx).length_le
    rw [String.data_append, String.data_append, List.length_append, List.length_append] at hp
    have h12 : "            ".data.length = 12 := by decide
    have h3 : " = ".data.length = 3 := by decide
    rw [h12, h3] at hp
    omega

/-- The verbatim extra-directive line sets no key that the extra directive
itself does not start with. -/
theorem setsKey_extra (key extra : String)
    (h : strIsPrefixOf (key ++ " = ") extra = false) :
    setsKey key ("            " ++ extra) = false := by
  unfold strIsPrefixOf at h
  unfold setsKey strIsPrefixOf
  simp only [String.data_append] at h ⊢
  cases hx : ("            ".data ++ (key.data ++ " = ".data)).isPrefixOf
      ("            ".data ++ extra.data) with
  | false => rfl
  | true =>
    exfalso
    have hp := List.isPrefixOf_iff_prefix.mp hx
    rw [List.prefix_append_right_inj] at hp
    have hc' := List.isPrefixOf_iff_prefix.mpr hp
    rw [h] at hc'
    exact absurd hc' (by decide)

/-- An override line whose literal head the key prefix matches sets the
key. -/
theorem setsKey_line_eq (key lit : String) {rest : String}
    (h : ("            " ++ (key ++ " = ")).data.isPrefixOf lit.data = true) :
    setsKey key (lit ++ rest) = true :=
  strIsPrefixOf_append_true _ _ _ h

/-- An override line whose literal head is incomparable with the key prefix
does not set the key. -/
theorem setsKey_line_ne (key lit : String) {rest : String}
    (h1 : ("            " ++ (key ++ " = ")).data.isPrefixOf lit.data = false)
    (h2 : lit.data.isPrefixOf ("            " ++ (key ++ " = ")).data = false) :
    setsKey key (lit ++ rest) = false :=
  strIsPrefixOf_append_false _ _ _ h1 h2

/-- Exactly one override line of the overlay sets each required key, for any
extra directive that does not itself start with a required-key assignment. -/
theorem countP_setsKey_overlay (version port : Nat) (tmp extra : String)
    (key : String) (hkey : key ∈ requiredConfKeys)
    (hextra : ∀ k ∈ requiredConfKeys, strIsPrefixOf (k ++ " = ") extra = false) :
    (overlayLines version port tmp extra).countP (setsKey key) = 1 := by
  fin_cases hkey
  · simp only [overlayLines, String.append_assoc, List.countP_cons, List.countP_nil,
      setsKey_short "port" "" (by decide),
      setsKey_short "port" "            " (by decide),
      setsKey_line_eq "port" "            port = " (by decide),
      setsKey_line_ne "port" "            data_directory = '/var/lib/postgresql/" (by decide) (by decide),
      setsKey_line_ne "port" "            hba_file = '" (by decide) (by decide),
      setsKey_line_ne "port" "            ident_file = '" (by decide) (by decide),
      setsKey_line_ne "port" "            external_pid_file = '/var/run/postgresql/" (by decide) (by decide),
      setsKey_line_ne "port" "            cluster_name = '" (by decide) (by decide),
      setsKey_line_ne "port" "            stats_temp_directory = '/var/run/postgresql/" (by decide) (by decide),
      setsKey_extra "port" extra (hextra "port" (by simp [requiredConfKeys]))]
    decide
  · simp only [overlayLines, String.append_assoc, List.countP_cons, List.countP_nil,
      setsKey_short "data_directory" "" (by decide),
      setsKey_short "data_directory" "            " (by decide),
      setsKey_line_ne "data_directory" "            port = " (by decide) (by decide),
      setsKey_line_eq "data_directory" "            data_directory = '/var/lib/postgresql/" (by decide),
      setsKey_line_ne "data_directory" "            hba_file = '" (by decide) (by decide),
      setsKey_line_ne "data_directory" "            ident_file = '" (by decide) (by decide),
      setsKey_line_ne "data_directory" "            external_pid_file = '/var/run/postgresql/" (by decide) (by decide),
      setsKey_line_ne "data_directory" "            cluster_name = '" (by decide) (by decide),
      setsKey_line_ne "data_directory" "            stats_temp_directory = '/var/run/postgresql/" (by decide) (by decide),
      setsKey_extra "data_directory" extra (hextra "data_directory" (by simp [requiredConfKeys]))]
    decide
  · simp only [overlayLines, String.append_assoc, List.countP_cons, List.countP_nil,
      setsKey_short "hba_file" "" (by decide),
      setsKey_short "hba_file" "            " (by decide),
      setsKey_line_ne "hba_file" "            port = " (by decide) (by decide),
      setsKey_line_ne "hba_file" "            data_directory = '/var/lib/postgresql/" (by decide) (by decide),
      setsKey_line_eq "hba_file" "            hba_file = '" (by decide),
      setsKey_line_ne "hba_file" "            ident_file = '" (by decide) (by decide),
      setsKey_line_ne "hba_file" "            external_pid_file = '/var/run/postgresql/" (by decide) (by decide),
      setsKey_line_ne "hba_file" "            cluster_name = '" (by decide) (by decide),
      setsKey_line_ne "hba_file" "            stats_temp_directory = '/var/run/postgresql/" (by decide) (by decide),
      setsKey_extra "hba_file" extra (hextra "hba_file" (by simp [requiredConfKeys]))]
    decide
  · simp only [overlayLines, String.append_assoc, List.countP_cons, List.countP_nil,
      setsKey_short "ident_file" "" (by decide),
      setsKey_short "ident_file" "            " (by decide),
      setsKey_line_ne "ident_file" "            port = " (by decide) (by decide),
      setsKey_line_ne "ident_file" "            data_directory = '/var/lib/postgresql/" (by decide) (by decide),
      setsKey_line_ne "ident_file" "            hba_file = '" (by decide) (by decide),
      setsKey_line_eq "ident_file" "            ident_file = '" (by decide),
      setsKey_line_ne "ident_file" "            external_pid_file = '/var/run/postgresql/" (by decide) (by decide),
      setsKey_line_ne "ident_file" "            cluster_name = '" (by decide) (by decide),
      setsKey_line_ne "ident_file" "            stats_temp_directory = '/var/run/postgresql/" (by decide) (by decide),
      setsKey_extra "ident_file" extra (hextra "ident_file" (by simp [requiredConfKeys]))]
    decide
  · simp only [overlayLines, String.append_assoc, List.countP_cons, List.countP_nil,
      setsKey_short "external_pid_file" "" (by decide),
      setsKey_short "external_pid_file" "            " (by decide),
      setsKey_line_ne "external_pid_file" "            port = " (by decide) (by decide),
      setsKey_line_ne "external_pid_file" "            data_directory = '/var/lib/postgresql/" (by decide) (by decide),
      setsKey_line_ne "external_pid_file" "            hba_file = '" (by decide) (by decide),
      setsKey_line_ne "external_pid_file" "            ident_file = '" (by decide) (by decide),
      setsKey_line_eq "external_pid_file" "            external_pid_file = '/var/run/postgresql/" (by decide),
      setsKey_line_ne "external_pid_file" "            cluster_name = '" (by decide) (by decide),
      setsKey_line_ne "external_pid_file" "            stats_temp_directory = '/var/run/postgresql/" (by decide) (by decide),
      setsKey_extra "external_pid_file" extra (hextra "external_pid_file" (by simp [requiredConfKeys]))]
    decide
  · simp only [overlayLines, String.append_assoc, List.countP_cons, List.countP_nil,
      setsKey_short "cluster_name" "" (by decide),
      setsKey_short "cluster_name" "            " (by decide),
      setsKey_line_ne "cluster_name" "            port = " (by decide) (by decide),
      setsKey_line_ne "cluster_name" "            data_directory = '/var/lib/postgresql/" (by decide) (by decide),
      setsKey_line_ne "cluster_name" "            hba_file = '" (by decide) (by decide),
      setsKey_line_ne "cluster_name" "            ident_file = '" (by decide) (by decide),
      setsKey_line_ne "cluster_name" "            external_pid_file = '/var/run/postgresql/" (by decide) (by decide),
      setsKey_line_eq "cluster_name" "            cluster_name = '" (by decide),
      setsKey_line_ne "cluster_name" "            stats_temp_directory = '/var/run/postgresql/" (by decide) (by decide),
      setsKey_extra "cluster_name" extra (hextra "cluster_name" (by simp [requiredConfKeys]))]
    decide
  · simp only [overlayLines, String.append_assoc, List.countP_cons, List.countP_nil,
      setsKey_short "stats_temp_directory" "" (by decide),
      setsKey_short "stats_temp_directory" "            " (by decide),
      setsKey_line_ne "stats_temp_directory" "            port = " (by decide) (by decide),
      setsKey_line_ne "stats_temp_directory" "            data_directory = '/var/lib/postgresql/" (by decide) (by decide),
      setsKey_line_ne "stats_temp_directory" "            hba_file = '" (by decide) (by decide),
      setsKey_line_ne "stats_temp_directory" "            ident_file = '" (by decide) (by decide),
      setsKey_line_ne "stats_temp_directory" "            external_pid_file = '/var/run/postgresql/" (by decide) (by decide),
      setsKey_line_ne "stats_temp_directory" "            cluster_name = '" (by decide) (by decide),
      setsKey_line_eq "stats_temp_directory" "            stats_temp_directory = '/var/run/postgresql/" (by decide),
      setsKey_extra "stats_temp_directory" extra (hextra "stats_temp_directory" (by simp [requiredConfKeys]))]
    decide

/-- Claim C7: the overlay a successful construction appends to the copied
configuration has exactly one override line per required key, with the
caller-supplied extra directive appearing verbatim on its own line (for any
extra directive that does not itself start with a required-key assignment,
as neither of the two the script passes does). -/
theorem overlay_one_override_per_key (fs fs' : FS) (version : Nat)
    (target starting : Bool) (port : Nat) (extra : String) (d : PostgresVersion)
    (hok : mkPostgresVersion fs version target starting port extra = (fs', Except.ok d))
    (hextra : ∀ k ∈ requiredConfKeys, strIsPrefixOf (k ++ " = ") extra = false) :
    (∀ key ∈ requiredConfKeys, d.overlay.countP (setsKey key) = 1) ∧
    ("            " ++ extra) ∈ d.overlay := by
  have hd := mkPostgresVersion_ok fs fs' version target starting port extra d hok
  subst hd
  constructor
  · intro key hkey
    simpa [descriptorOf] using
      countP_setsKey_overlay version port (pgTmpConfDir version) extra key hkey hextra
  · simp [descriptorOf, overlayLines]

/-- Witness for the overlay theorem: the version-11 starting descriptor on
the healthy filesystem is built successfully, its overlay sets the port key
exactly once and carries the (empty) extra directive line verbatim. -/
theorem overlay_one_override_per_key_witness :
    ∃ fs' d, mkPostgresVersion wFS 11 false true 50432 "" = (fs', Except.ok d) ∧
      d.overlay.countP (setsKey "port") = 1 ∧ ("            " ++ "") ∈ d.overlay := by
  have hps : (mkPostgresVersion wFS 11 false true 50432 "").2
      = Except.ok (descriptorOf 11 50432 false "") :=
    okValue_eq_some _ _ (by decide)
  have heq : mkPostgresVersion wFS 11 false true 50432 ""
      = ((mkPostgresVersion wFS 11 false true 50432 "").1,
         Except.ok (descriptorOf 11 50432 false "")) := by
    rw [← hps]
  obtain ⟨h1, h2⟩ := overlay_one_override_per_key wFS _ 11 false true 50432 "" _ heq (by decide)
  exact ⟨_, _, heq, h1 "port" (by simp [requiredConfKeys]), h2⟩

/-- A bounded run of the readiness poll that returns did start at or before
the returned attempt, that attempt succeeded, and every earlier attempt
from the start failed. -/
theorem waitUntilUp_some_spec (net : Nat → ConnectOutcome) :
    ∀ fuel s k, waitUntilUp net fuel s = some k →
      s ≤ k ∧ tcp_port_is_open (net k) = true ∧
      ∀ j, s ≤ j → j < k → tcp_port_is_open (net j) = false := by
  intro fuel
  induction fuel with
  | zero =>
    intro s k h
    simp [waitUntilUp] at h
  | succ n ih =>
    intro s k h
    rw [waitUntilUp] at h
    by_cases ho : tcp_port_is_open (net s) = true
    · rw [if_pos ho] at h
      obtain rfl : s = k := by simpa using h
      exact ⟨Nat.le_refl _, ho, fun j hj1 hj2 => absurd hj1 (by omega)⟩
    · rw [if_neg ho] at h
      obtain ⟨h1, h2, h3⟩ := ih (s + 1) k h
      refine ⟨by omega, h2, fun j hj1 hj2 => ?_⟩
      by_cases hjs : j = s
      · subst hjs
        simpa using ho
      · exact h3 j (by omega) hj2

/-- If no attempt ever succeeds, the readiness poll returns within no
bound. -/
theorem waitUntilUp_none (net : Nat → ConnectOutcome)
    (h : ∀ k, tcp_port_is_open (net k) = false) :
    ∀ fuel s, waitUntilUp net fuel s = none := by
  intro fuel
  induction fuel with
  | zero => intro s; rfl
  | succ n ih =>
    intro s
    rw [waitUntilUp, if_neg (by simp [h s])]
    exact ih (s + 1)

/-- Claim C8: the readiness wait returns only strictly after a connection
attempt succeeds (the returning attempt succeeded, all earlier ones
failed), and against a port that never opens it does not return within any
test-injected bound. -/
theorem waitUntilUp_only_after_success (net : Nat → ConnectOutcome) :
    (∀ fuel k, waitUntilUp net fuel 0 = some k →
      tcp_port_is_open (net k) = true ∧ ∀ j < k, tcp_port_is_open (net j) = false) ∧
    ((∀ k, tcp_port_is_open (net k) = false) → ∀ fuel, waitUntilUp net fuel 0 = none) := by
  constructor
  · intro fuel k h
    obtain ⟨-, h2, h3⟩ := waitUntilUp_some_spec net fuel 0 k h
    exact ⟨h2, fun j hj => h3 j (by omega) hj⟩
  · intro hnone fuel
    exact waitUntilUp_none net hnone fuel 0

/-- A network where only the third attempt connects. -/
def wNetUp : Nat → ConnectOutcome :=
  fun k => if k == 2 then ConnectOutcome.code 0 else ConnectOutcome.code 111

/-- A network where name resolution always fails. -/
def wNetDown : Nat → ConnectOutcome := fun _ => ConnectOutcome.gaierror

/-- Witness for the readiness theorem: with the port opening at the third
attempt the poll returns at it, having seen only failures before; with the
never-open network the poll returns within no bound (checked at bound 5). -/
theorem waitUntilUp_only_after_success_witness :
    (tcp_port_is_open (wNetUp 2) = true ∧ ∀ j < 2, tcp_port_is_open (wNetUp j) = false) ∧
    waitUntilUp wNetDown 5 0 = none :=
  ⟨(waitUntilUp_only_after_success wNetUp).1 10 2 (by decide),
   (waitUntilUp_only_after_success wNetDown).2 (fun _ => rfl) 5⟩

/-- Directory creation never makes an existing directory invisible. -/
theorem FS.mkdirp_isDir_mono (fs : FS) (d p : String) (h : fs.isDir p = true) :
    (fs.mkdirp d).isDir p = true := by
  unfold FS.mkdirp
  dsimp only
  split <;> simp [h]

/-- Directory creation never revokes executable access. -/
theorem FS.mkdirp_accX_mono (fs : FS) (d p : String) (h : fs.accX p = true) :
    (fs.mkdirp d).accX p = true := by
  unfold FS.mkdirp
  dsimp only
  split <;> simp [h]

/-- With a number of configuration sets different from one, the
configuration lookup fails. -/
theorem conf_lookup_fails_of_not_single (fs : FS) (h : fs.etcList.length ≠ 1) :
    ∃ m, current_postgresql_config_path fs = Except.error m := by
  rcases hl : fs.etcList with - | ⟨x, - | ⟨y, rest⟩⟩
  · exact ⟨_, by unfold current_postgresql_config_path; rw [hl]⟩
  · exact absurd (by rw [hl]; rfl) h
  · exact ⟨_, by unfold current_postgresql_config_path; rw [hl]⟩

/-- The healthy filesystem, except that a stale temporary configuration
directory for version 13 is left over and two configuration sets are
installed, so the configuration lookup fails. -/
def wFSStaleConf : FS :=
  { ex := fun p => p == "/var/tmp/postgresql/conf/13" || wFS.ex p
    isDir := fun p => p == "/var/tmp/postgresql/conf/13" || wFS.isDir p
    isFile := wFS.isFile
    accX := wFS.accX
    etcList := ["11", "12"] }

/-- Counterexample to claim C9: on a filesystem where the configuration
lookup fails (two candidates) and a stale tmpConfDir for version 13
exists, constructing the version-13 target descriptor fails, but after the
failure the stale tmpConfDir is gone, not intact: the stale copy was
destroyed before the failing check ran. -/
theorem stale_conf_destroyed_despite_failed_lookup :
    wFSStaleConf.ex (pgTmpConfDir 13) = true ∧
    ∃ fs' m, mkPostgresVersion wFSStaleConf 13 true false 50435 ""
        = (fs', Except.error m) ∧
      fs'.ex (pgTmpConfDir 13) = false := by
  refine ⟨by decide, ?_⟩
  have h1 : ((mkPostgresVersion wFSStaleConf 13 true false 50435 "").1).ex
      (pgTmpConfDir 13) = false := by decide
  have h2 : (okValue (mkPostgresVersion wFSStaleConf 13 true false 50435 "").2).isSome
      = false := by decide
  obtain ⟨m, hm⟩ : ∃ m, (mkPostgresVersion wFSStaleConf 13 true false 50435 "").2
      = Except.error m := by
    cases hx : (mkPostgresVersion wFSStaleConf 13 true false 50435 "").2 with
    | ok a => rw [hx] at h2; exact absurd h2 (by simp [okValue])
    | error e => exact ⟨e, rfl⟩
  refine ⟨(mkPostgresVersion wFSStaleConf 13 true false 50435 "").1, m, ?_, h1⟩
  rw [← hm]

/-- Recursive deletion never resurrects a missing file. -/
theorem FS.rmtree_isFile_false (fs : FS) (root p : String) (h : fs.isFile p = false) :
    (fs.rmtree root).isFile p = false := by
  unfold FS.rmtree
  dsimp only
  split <;> simp [h]

/-- The configuration lookup fails in each of its three failure modes:
more or fewer than one candidate under the configuration root, a
non-decimal candidate name, or a missing primary configuration file. -/
theorem conf_lookup_fails (fs : FS)
    (h : fs.etcList.length ≠ 1 ∨
         (∃ x, fs.etcList = [x] ∧ decimalToNat? x = none) ∨
         (∃ x n, fs.etcList = [x] ∧ decimalToNat? x = some n ∧
           fs.isFile ("/etc/postgresql/" ++ toString n ++ "/main" ++ "/postgresql.conf")
             = false)) :
    ∃ m, current_postgresql_config_path fs = Except.error m := by
  rcases h with h | ⟨x, hx, hnat⟩ | ⟨x, n, hx, hnat, hfile⟩
  · exact conf_lookup_fails_of_not_single fs h
  · refine ⟨"Invalid PostgreSQL version: " ++ x, ?_⟩
    unfold current_postgresql_config_path
    simp only [hx, hnat]
  · refine ⟨"postgresql.conf does not exist in " ++
      ("/etc/postgresql/" ++ toString n ++ "/main") ++ ".", ?_⟩
    unfold current_postgresql_config_path
    simp only [hx, hnat, hfile]
    rw [if_neg (by simp [hfile])]

/-- Claim C9 (amended): whenever a descriptor construction of any kind
(target or not, starting version or not) passes its earlier checks and then
fails because the active configuration cannot be located — zero or more
than one candidate under the configuration root, a non-decimal candidate
name, or the primary configuration file missing — the construction fails
before any configuration is copied, but after the destructive recreation
step: at the failure the per-version temporary configuration directory does
not exist, a pre-existing stale copy having already been deleted. -/
theorem failed_conf_lookup_after_stale_purge (fs : FS) (version port : Nat)
    (target starting : Bool) (extra : String)
    (hpre : dataDirChecks fs version target starting = Except.ok ())
    (hbin : binChecks (fs.mkdirp (pgRunStatTmpDir version)) version target = Except.ok ())
    (hconf : fs.etcList.length ≠ 1 ∨
         (∃ x, fs.etcList = [x] ∧ decimalToNat? x = none) ∨
         (∃ x n, fs.etcList = [x] ∧ decimalToNat? x = some n ∧
           fs.isFile ("/etc/postgresql/" ++ toString n ++ "/main" ++ "/postgresql.conf")
             = false)) :
    ∃ fs' m, mkPostgresVersion fs version target starting port extra
        = (fs', Except.error m) ∧
      fs'.ex (pgTmpConfDir version) = false := by
  simp only [mkPostgresVersion, hpre, hbin]
  by_cases hstale : (fs.mkdirp (pgRunStatTmpDir version)).ex (pgTmpConfDir version) = true
  · rw [if_pos hstale]
    have hconf2 : ∃ m, current_postgresql_config_path
        ((fs.mkdirp (pgRunStatTmpDir version)).rmtree (pgTmpConfDir version))
          = Except.error m := by
      apply conf_lookup_fails
      rcases hconf with h | ⟨x, hx, hnat⟩ | ⟨x, n, hx, hnat, hfile⟩
      · exact Or.inl h
      · exact Or.inr (Or.inl ⟨x, hx, hnat⟩)
      · exact Or.inr (Or.inr ⟨x, n, hx, hnat,
          FS.rmtree_isFile_false (fs.mkdirp (pgRunStatTmpDir version)) _ _ hfile⟩)
    obtain ⟨m, hm⟩ := hconf2
    rw [hm]
    refine ⟨_, m, rfl, ?_⟩
    simp [FS.rmtree, pathIsUnder]
  · rw [if_neg hstale]
    have hconf2 : ∃ m, current_postgresql_config_path
        (fs.mkdirp (pgRunStatTmpDir version)) = Except.error m := by
      apply conf_lookup_fails
      rcases hconf with h | ⟨x, hx, hnat⟩ | ⟨x, n, hx, hnat, hfile⟩
      · exact Or.inl h
      · exact Or.inr (Or.inl ⟨x, hx, hnat⟩)
      · exact Or.inr (Or.inr ⟨x, n, hx, hnat, hfile⟩)
    obtain ⟨m, hm⟩ := hconf2
    rw [hm]
    refine ⟨_, m, rfl, ?_⟩
    simpa using hstale

/-- The healthy filesystem with a stale temporary configuration directory
for version 11 and the primary configuration file missing, so that the
configuration lookup fails on its missing-file mode during the construction
of the (non-target) starting version. -/
def wFSConfMissing : FS :=
  { ex := fun p => p == "/var/tmp/postgresql/conf/11" || wFS.ex p
    isDir := fun p => p == "/var/tmp/postgresql/conf/11" || wFS.isDir p
    isFile := fun p => p == "/var/lib/postgresql/11/main/PG_VERSION"
    accX := wFS.accX
    etcList := ["11"] }

/-- Witness for the amended configuration-lookup theorem, at two concrete
constructions: the version-13 target construction failing on the
two-candidates mode, and the version-11 starting construction failing on
the missing-postgresql.conf mode with its stale tmpConfDir deleted. -/
theorem failed_conf_lookup_after_stale_purge_witness :
    (∃ fs' m, mkPostgresVersion wFSStaleConf 13 true false 50435 ""
        = (fs', Except.error m) ∧
      fs'.ex (pgTmpConfDir 13) = false) ∧
    (∃ fs' m, mkPostgresVersion wFSConfMissing 11 false true 50432 ""
        = (fs', Except.error m) ∧
      fs'.ex (pgTmpConfDir 11) = false) := by
  constructor
  · exact failed_conf_lookup_after_stale_purge wFSStaleConf 13 50435 true false ""
      (okValue_eq_some _ _ (by decide)) (okValue_eq_some _ _ (by decide))
      (Or.inl (by decide))
  · exact failed_conf_lookup_after_stale_purge wFSConfMissing 11 50432 false true ""
      (okValue_eq_some _ _ (by decide)) (okValue_eq_some _ _ (by decide))
      (Or.inr (Or.inr ⟨"11", 11, rfl, by decide, by decide⟩))

/-- When the path handed to `os.unlink` does not exist, the first matched
file already aborts the inner cleanup loop with `FileNotFoundError`,
deleting nothing. -/
theorem unlinkMatches_missing (cwd pattern : String) (fs : FS) (f : String)
    (files : List String) (h : fs.ex (resolvePath cwd pattern) = false) :
    unlinkMatches cwd pattern (f :: files) fs
      = (fs, Except.error ("FileNotFoundError: " ++ resolvePath cwd pattern)) := by
  simp [unlinkMatches, FS.unlink, h]

/-- Claim C10: under passing preflight checks, whenever some leftover file
matches one of the cleanup patterns, the cleanup step fails with a
file-not-found error on the pattern string itself (resolved against the
working directory), deleting nothing, and the whole run aborts before any
version pair is constructed; with no matching file the step deletes
nothing and the run proceeds.  The side condition that no file is literally
named like a glob pattern under the working directory is what makes the
`os.unlink(pattern)` call fail. -/
theorem cruft_cleanup_unlinks_pattern_string (env : Env)
    (source_version target_version : Nat)
    (hdir : dir_exists_and_accessible env.fs POSTGRES_DATA_DIR = true)
    (huser : env.user = POSTGRES_USER)
    (hst : source_version < target_version)
    (hmem : env.memCfgExit = 0)
    (hnofile : ∀ p ∈ cruftPatterns, env.fs.ex (resolvePath env.cwd p) = false) :
    ((∃ p ∈ cruftPatterns, env.glob (POSTGRES_DATA_DIR ++ "/" ++ p) ≠ []) →
      (cleanupLeftovers env.glob env.cwd cruftPatterns env.fs).1 = env.fs ∧
      (∃ m, (cleanupLeftovers env.glob env.cwd cruftPatterns env.fs).2 = Except.error m) ∧
      (∃ m, postgres_upgrade env source_version target_version
        = (env.fs, Except.error m))) ∧
    ((∀ p ∈ cruftPatterns, env.glob (POSTGRES_DATA_DIR ++ "/" ++ p) = []) →
      cleanupLeftovers env.glob env.cwd cruftPatterns env.fs = (env.fs, Except.ok ())) := by
  have hpre : preflight env.fs env.user source_version target_version
      = (env.fs, Except.ok ()) := by
    unfold preflight
    rw [if_neg (by simp [hdir]), if_neg (by simp [huser]), if_neg (by omega)]
  constructor
  · rintro ⟨p, hp, hne⟩
    have habort : ∃ m, cleanupLeftovers env.glob env.cwd cruftPatterns env.fs
        = (env.fs, Except.error m) := by
      cases hg1 : env.glob (POSTGRES_DATA_DIR ++ "/" ++ "pg_*.log") with
      | cons f rest =>
        refine ⟨"FileNotFoundError: " ++ resolvePath env.cwd "pg_*.log", ?_⟩
        have hu := hnofile "pg_*.log" (by simp [cruftPatterns])
        simp [cruftPatterns, cleanupLeftovers, hg1, unlinkMatches, FS.unlink, hu]
      | nil =>
        cases hg2 : env.glob (POSTGRES_DATA_DIR ++ "/" ++ "pg_*.custom") with
        | cons f rest =>
          refine ⟨"FileNotFoundError: " ++ resolvePath env.cwd "pg_*.custom", ?_⟩
          have hu := hnofile "pg_*.custom" (by simp [cruftPatterns])
          simp [cruftPatterns, cleanupLeftovers, hg1, hg2, unlinkMatches, FS.unlink, hu]
        | nil =>
          cases hg3 : env.glob (POSTGRES_DATA_DIR ++ "/" ++ "pg_upgrade_dump_globals.sql") with
          | cons f rest =>
            refine ⟨"FileNotFoundError: " ++ resolvePath env.cwd "pg_upgrade_dump_globals.sql", ?_⟩
            have hu := hnofile "pg_upgrade_dump_globals.sql" (by simp [cruftPatterns])
            simp [cruftPatterns, cleanupLeftovers, hg1, hg2, hg3, unlinkMatches,
              FS.unlink, hu]
          | nil =>
            exfalso
            simp only [cruftPatterns, List.mem_cons, List.not_mem_nil, or_false] at hp
            rcases hp with rfl | rfl | rfl
            · exact hne hg1
            · exact hne hg2
            · exact hne hg3
    obtain ⟨m, hm⟩ := habort
    refine ⟨by rw [hm], ⟨m, by rw [hm]⟩, m, ?_⟩
    simp only [postgres_upgrade, hpre]
    rw [if_neg (by simp [hmem]), hm]
  · intro hall
    simp [cleanupLeftovers, cruftPatterns, unlinkMatches,
      hall "pg_*.log" (by simp [cruftPatterns]),
      hall "pg_*.custom" (by simp [cruftPatterns]),
      hall "pg_upgrade_dump_globals.sql" (by simp [cruftPatterns])]

/-- The glob oracle of the concrete leftover run: one leftover log file
matches the first pattern. -/
def wGlob : String → List String :=
  fun s => if s == "/var/lib/postgresql/pg_*.log"
    then ["/var/lib/postgresql/pg_upgrade_server.log"] else []

/-- A concrete invocation with passing preflight checks and one leftover
log file. -/
def wEnvCruft : Env :=
  { fs := wFS, user := "postgres", cwd := "/var/lib/postgresql", memCfgExit := 0
    ramSize := 1000, glob := wGlob, exits := wExits }

/-- Witness for the leftover-cleanup theorem: the concrete invocation with a
leftover log file aborts with an error, deletes nothing, and builds no
pair. -/
theorem cruft_cleanup_unlinks_pattern_string_witness :
    (cleanupLeftovers wEnvCruft.glob wEnvCruft.cwd cruftPatterns wEnvCruft.fs).1
      = wEnvCruft.fs ∧
    (∃ m, (cleanupLeftovers wEnvCruft.glob wEnvCruft.cwd cruftPatterns wEnvCruft.fs).2
      = Except.error m) ∧
    (∃ m, postgres_upgrade wEnvCruft 11 13 = (wEnvCruft.fs, Except.error m)) := by
  obtain ⟨habort, -⟩ := cruft_cleanup_unlinks_pattern_string wEnvCruft 11 13
    (by decide) rfl (by norm_num) rfl (by decide)
  exact habort ⟨"pg_*.log", by simp [cruftPatterns], by decide⟩
